import Mathlib

/-!
Verification of the AIMaintain dashboard (src/index.tsx) against its
specification.  The embedding below translates the data model and the
operations of the source file into Lean:

* JavaScript strings become Lean `String`; `localStorage` becomes a total
  map `String → Option String`.
* `Math.random()` (a float in `[0,1)`) becomes a rational parameter, with
  `Math.floor` as `Int.floor`; the random string suffixes used for tokens
  and ids become explicit string parameters.
* Promises that can reject become `Except String`; a promise that always
  resolves is a total function.
* The React dashboard effect (polling with `setInterval`, cleanup with
  `clearInterval`) becomes an explicit event-step machine on the view
  state.
-/

-- ## Basic data types (from src/index.tsx lines 12-31)

inductive Role
  | ADMIN
  | OPERATOR
  deriving DecidableEq, Repr

structure UserProfile where
  id : String
  name : String
  email : String
  role : Role
  deriving DecidableEq, Repr

/-- Embeds the `{token, user}` payload resolved by `login` / `register`. -/
structure AuthResponse where
  token : String
  user : UserProfile
  deriving DecidableEq, Repr

inductive DeviceStatus
  | ONLINE
  | OFFLINE
  | ERROR
  | MAINTENANCE
  deriving DecidableEq, Repr

structure Device where
  id : String
  name : String
  ip : String
  status : DeviceStatus
  cpu_load : Nat
  temp : Nat
  uptime : String
  deriving DecidableEq, Repr

structure LogEntry where
  id : Nat
  time : String
  level : String
  message : String
  source : String
  deriving DecidableEq, Repr

/-- Embeds the stats record returned by `fetchSystemStats` (integers,
since the source computes `base + Math.floor(Math.random() * n)`). -/
structure SystemStats where
  cpu : Int
  memory : Int
  network : Int
  activeNodes : Int
  deriving DecidableEq, Repr

inductive ViewState
  | AUTH
  | DASHBOARD
  deriving DecidableEq, Repr

-- ## String helpers translating the JavaScript primitives used by the source

/-- Embeds the test that `needle` starts the list `hay` (used to translate
the JavaScript `String.includes` substring test). -/
def leadsWith : List Char → List Char → Bool
  | [], _ => true
  | _ :: _, [] => false
  | a :: as, b :: bs => a == b && leadsWith as bs

/-- Embeds the JavaScript substring test `hay.includes(needle)` on char
lists: true when `needle` occurs contiguously inside `hay`. -/
def containsSub (needle : List Char) : List Char → Bool
  | [] => needle.isEmpty
  | _c :: rest => leadsWith needle (_c :: rest) || containsSub needle rest

/-- Embeds `hay.includes(needle)` for strings. -/
def strIncludes (hay needle : String) : Bool :=
  containsSub needle.data hay.data

/-- Embeds the JavaScript `s.toUpperCase()` as a character-wise map (the
source only upper-cases ASCII identifiers). -/
def strToUpper (s : String) : String :=
  String.mk (s.data.map Char.toUpper)

/-- Embeds `s.split(sep)` for a single-character separator, as the
JavaScript `String.prototype.split` behaves on such separators. -/
def splitOnChar (sep : Char) : List Char → List (List Char)
  | [] => [[]]
  | c :: rest =>
    if c == sep then [] :: splitOnChar sep rest
    else
      match splitOnChar sep rest with
      | [] => [[c]]
      | p :: ps => (c :: p) :: ps

-- ## Mock adapter (src/index.tsx lines 47-106)

/-- Embeds the credential check of `MockAdapter.login`:
`email.includes('@') && password.length >= 8`. -/
def validCreds (email password : String) : Bool :=
  strIncludes email "@" && decide (8 ≤ password.length)

/-- Embeds `MockAdapter.login`.  The two `Math.random()` suffixes that feed
the token and the user id are the explicit parameters `tokenRnd` and
`idRnd`; everything else follows src/index.tsx lines 48-66 directly:
on valid credentials it resolves `{token, user}` with the name taken from
`email.split('@')[0].toUpperCase()` and the role decided by
`email.includes('admin')`; otherwise it rejects `INVALID CREDENTIALS`. -/
def MockAdapter.login (tokenRnd idRnd email password : String) :
    Except String AuthResponse :=
  if validCreds email password then
    Except.ok
      { token := "mock-jwt-token-" ++ tokenRnd
        user :=
          { id := "usr_" ++ idRnd
            name := strToUpper (String.mk ((splitOnChar '@' email.data).headD []))
            email := email
            role := if strIncludes email "admin" then Role.ADMIN else Role.OPERATOR } }
  else
    Except.error "INVALID CREDENTIALS"

/-- Embeds `MockAdapter.register` (src/index.tsx lines 67-81): the promise
always resolves, the role is always OPERATOR and the name is the supplied
full name upper-cased.  The unused `password` parameter is kept to match
the source signature. -/
def MockAdapter.register (tokenRnd idRnd email _password fullName : String) :
    Except String AuthResponse :=
  Except.ok
    { token := "mock-jwt-token-" ++ tokenRnd
      user :=
        { id := "usr_" ++ idRnd
          name := strToUpper fullName
          email := email
          role := Role.OPERATOR } }

/-- Embeds `MockAdapter.fetchSystemStats` (src/index.tsx lines 82-89).
Each of the three `Math.random()` draws is a rational in `[0,1)` passed in
explicitly; the source computes `42 + Math.floor(r1*15)`,
`64 + Math.floor(r2*10)`, `120 + Math.floor(r3*50)` and the constant 24. -/
def MockAdapter.fetchSystemStats (r1 r2 r3 : ℚ) : SystemStats :=
  { cpu := 42 + Int.floor (r1 * 15)
    memory := 64 + Int.floor (r2 * 10)
    network := 120 + Int.floor (r3 * 50)
    activeNodes := 24 }

/-- Embeds `MockAdapter.fetchLogs` (src/index.tsx lines 90-98): a
zero-argument call that always resolves to the same hardcoded list.  The
`Unit` argument stands for one invocation. -/
def MockAdapter.fetchLogs (_u : Unit) : List LogEntry :=
  [ { id := 1, time := "10:42:05", level := "INFO",
      message := "System startup sequence initiated.", source := "KERNEL" }
  , { id := 2, time := "10:42:08", level := "SUCCESS",
      message := "Database connection established (MySQL).", source := "DB_SHARD_01" }
  , { id := 3, time := "10:45:12", level := "WARN",
      message := "High latency detected on Node-04.", source := "NET_WATCH" }
  , { id := 4, time := "10:48:30", level := "ERROR",
      message := "Auth handshake failed: IP 192.168.1.44", source := "SEC_GATE" }
  , { id := 5, time := "10:50:01", level := "INFO",
      message := "Routine maintenance task scheduled.", source := "SCHEDULER" }
  , { id := 6, time := "10:51:15", level := "INFO",
      message := "API Gateway health check passed.", source := "API_GW" }
  , { id := 7, time := "10:52:20", level := "WARN",
      message := "Memory usage spike detected in container #442.", source := "DOCKER" } ]

/-- Embeds `MockAdapter.fetchDevices` (src/index.tsx lines 99-105): a
zero-argument call that always resolves to the same hardcoded list. -/
def MockAdapter.fetchDevices (_u : Unit) : List Device :=
  [ { id := "DEV-001", name := "Main Server Alpha", ip := "192.168.1.10",
      status := DeviceStatus.ONLINE, cpu_load := 45, temp := 62, uptime := "14d 2h" }
  , { id := "DEV-002", name := "Backup Node B", ip := "192.168.1.11",
      status := DeviceStatus.ONLINE, cpu_load := 12, temp := 45, uptime := "4d 12h" }
  , { id := "DEV-003", name := "Edge Gateway", ip := "192.168.1.20",
      status := DeviceStatus.ERROR, cpu_load := 98, temp := 85, uptime := "0d 4h" }
  , { id := "DEV-004", name := "Analytics Engine", ip := "192.168.1.25",
      status := DeviceStatus.MAINTENANCE, cpu_load := 0, temp := 20, uptime := "0d 0h" }
  , { id := "DEV-005", name := "Storage Cluster", ip := "192.168.1.30",
      status := DeviceStatus.ONLINE, cpu_load := 56, temp := 58, uptime := "45d 1h" } ]

-- ## Session store and provider selector (src/index.tsx lines 155-158, 596-601)

/-- Embeds `localStorage`: a durable key-value map from string keys to
optionally present string values. -/
def Store : Type := String → Option String

/-- Embeds `localStorage.getItem`. -/
def getItem (store : Store) (k : String) : Option String := store k

/-- Embeds `localStorage.setItem`. -/
def setItem (store : Store) (k v : String) : Store :=
  fun q => if q = k then some v else store q

/-- Embeds `localStorage.removeItem`. -/
def removeItem (store : Store) (k : String) : Store :=
  fun q => if q = k then none else store q

/-- Embeds the empty storage state (no keys present). -/
def emptyStore : Store := fun _ => none

/-- The two concrete providers the selector can return. -/
inductive BackendChoice
  | MockAdapter
  | LiveAdapter
  deriving DecidableEq, Repr

/-- Embeds `getBackend` (src/index.tsx lines 155-158): reads the
`use_live_backend` flag and returns the Live adapter exactly when the
stored value is the string `true`, the Mock adapter otherwise. -/
def getBackend (store : Store) : BackendChoice :=
  if getItem store "use_live_backend" = some "true" then BackendChoice.LiveAdapter
  else BackendChoice.MockAdapter

/-- Embeds `String(b)` applied to a JavaScript boolean. -/
def boolToString (b : Bool) : String := if b then "true" else "false"

/-- Embeds `SettingsPanel.toggleBackend` (src/index.tsx lines 596-601):
`useLive` is the component state read from the store at mount
(`getItem === 'true'`); the handler stores the string form of its
negation.  The subsequent full page reload discards all in-memory state,
so the returned store is the whole effect. -/
def toggleBackend (store : Store) : Store :=
  setItem store "use_live_backend"
    (boolToString (! (decide (getItem store "use_live_backend" = some "true"))))

-- ## App bootstrap and logout (src/index.tsx lines 792-828)

/-- Embeds the in-memory state of the `App` component: the current view
and the current user profile. -/
structure AppState where
  view : ViewState
  user : Option UserProfile
  deriving DecidableEq, Repr

/-- One provider operation, for tracking which calls the bootstrap makes. -/
inductive ProviderCall
  | loginCall
  | registerCall
  | statsCall
  | logsCall
  | devicesCall
  deriving DecidableEq, Repr

/-- Embeds the bootstrap effect of `App` (src/index.tsx lines 797-817):
if `localStorage.getItem('token')` is present, a synthetic profile is
restored and the view becomes DASHBOARD; otherwise the initial AUTH view
stands.  The second component records every provider operation invoked
during bootstrap — the source invokes none. -/
def appBootstrap (store : Store) : AppState × List ProviderCall :=
  match getItem store "token" with
  | some _ =>
      ({ view := ViewState.DASHBOARD
         user := some
           { id := "usr_restored"
             name := "OPERATOR"
             email := "session@restored"
             role := Role.OPERATOR } }, [])
  | none => ({ view := ViewState.AUTH, user := none }, [])

/-- Embeds `App.handleLogout` (src/index.tsx lines 824-828): remove the
stored token, drop the profile, switch the view to AUTH. -/
def handleLogout (store : Store) (_st : AppState) : Store × AppState :=
  (removeItem store "token", { view := ViewState.AUTH, user := none })

-- ## Dashboard polling (src/index.tsx lines 675-697)

/-- Embeds the view-local state written by the polling effect of
`DashboardScreen`: the `stats` and `logs` `useState` slots. -/
structure DashboardState where
  stats : SystemStats
  logs : List LogEntry
  deriving DecidableEq, Repr

/-- Embeds the initial `useState` values of `DashboardScreen`
(src/index.tsx lines 677-678). -/
def initialDashboardState : DashboardState :=
  { stats := { cpu := 0, memory := 0, network := 0, activeNodes := 0 }, logs := [] }

/-- Embeds one run of `fetchData` (src/index.tsx lines 683-692), given the
outcomes of the two awaited provider calls.  The source awaits
`fetchSystemStats`, writes it, then awaits `fetchLogs` and writes it; any
throw jumps to the `catch`, which only logs.  Hence: a stats failure
leaves the state untouched (the logs call never starts), a logs failure
keeps the freshly written stats and the previous logs, and the function
itself never throws. -/
def fetchData (statsRes : Except String SystemStats)
    (logsRes : Except String (List LogEntry)) (st : DashboardState) :
    DashboardState :=
  match statsRes with
  | Except.error _ => st
  | Except.ok s =>
    match logsRes with
    | Except.error _ => { st with stats := s }
    | Except.ok l => { stats := s, logs := l }

/-- One observable action of a `fetchData` run, used to state ordering
facts about a poll tick. -/
inductive FetchAction
  | callFetchStats
  | writeStats (s : SystemStats)
  | callFetchLogs
  | writeLogs (l : List LogEntry)
  deriving DecidableEq, Repr

/-- Embeds the sequence of provider calls and state writes one `fetchData`
run performs, in source order (src/index.tsx lines 683-692). -/
def fetchDataTrace (statsRes : Except String SystemStats)
    (logsRes : Except String (List LogEntry)) : List FetchAction :=
  match statsRes with
  | Except.error _ => [FetchAction.callFetchStats]
  | Except.ok s =>
    match logsRes with
    | Except.error _ =>
        [FetchAction.callFetchStats, FetchAction.writeStats s,
         FetchAction.callFetchLogs]
    | Except.ok l =>
        [FetchAction.callFetchStats, FetchAction.writeStats s,
         FetchAction.callFetchLogs, FetchAction.writeLogs l]

/-- Embeds the recurring schedule set up by `setInterval(fetchData, 3000)`
(src/index.tsx line 695): the ticks fire unconditionally, each applying
`fetchData` with that tick's fetch outcomes, regardless of whether earlier
ticks failed. -/
def pollRun (ticks : List (Except String SystemStats × Except String (List LogEntry)))
    (st : DashboardState) : DashboardState :=
  match ticks with
  | [] => st
  | t :: rest => pollRun rest (fetchData t.1 t.2 st)

/-- One scheduling event of the dashboard view lifecycle.  `resolveStats`
and `resolveLogs` are the completions of awaited provider calls — possibly
of calls still in flight when the view deactivates; `deactivate` is the
effect cleanup (`clearInterval` plus unmount). -/
inductive PollEvent
  | deactivate
  | resolveStats (sr : Except String SystemStats)
  | resolveLogs (lr : Except String (List LogEntry))

/-- The dashboard view together with its mount status. -/
structure MountedDashboard where
  mounted : Bool
  dash : DashboardState
  deriving DecidableEq, Repr

/-- Embeds one event step of the dashboard lifecycle.  Writes from
resolved fetches are applied through the React state setters; modelled
from the spec for the host runtime: a state setter invoked on a view that
has already deactivated performs no write (src/index.tsx lines 682-697
install no guard of their own — the cleanup only clears the interval). -/
def pollStep (s : MountedDashboard) (e : PollEvent) : MountedDashboard :=
  match e with
  | PollEvent.deactivate => { s with mounted := false }
  | PollEvent.resolveStats (Except.ok v) =>
      if s.mounted then { s with dash := { s.dash with stats := v } } else s
  | PollEvent.resolveStats (Except.error _) => s
  | PollEvent.resolveLogs (Except.ok l) =>
      if s.mounted then { s with dash := { s.dash with logs := l } } else s
  | PollEvent.resolveLogs (Except.error _) => s

/-- Runs a list of lifecycle events from a given dashboard state. -/
def pollEvents (s : MountedDashboard) (es : List PollEvent) : MountedDashboard :=
  es.foldl pollStep s

-- ## Helper lemmas

theorem splitOnChar_ne_nil (sep : Char) (cs : List Char) : splitOnChar sep cs ≠ [] := by
  induction cs with
  | nil => simp [splitOnChar]
  | cons c rest ih =>
    simp only [splitOnChar]
    split
    · simp
    · split
      · simp
      · simp

theorem splitOnChar_headD (sep : Char) (cs : List Char) :
    (splitOnChar sep cs).headD [] = cs.takeWhile (fun c => !(c == sep)) := by
  induction cs with
  | nil => simp [splitOnChar]
  | cons c rest ih =>
    by_cases h : c == sep
    · simp [splitOnChar, h, List.takeWhile_cons]
    · cases hsp : splitOnChar sep rest with
      | nil => exact absurd hsp (splitOnChar_ne_nil sep rest)
      | cons p ps =>
        rw [hsp] at ih
        simp only [List.headD_cons] at ih
        simp [splitOnChar, h, hsp, List.takeWhile_cons, ih]

theorem validCreds_iff (email password : String) :
    validCreds email password = true ↔
      (strIncludes email "@" = true ∧ 8 ≤ password.length) := by
  simp [validCreds]

-- ## Claim theorems

/-- C1: For the Simulated Provider, `login(email, password)` succeeds iff
`email` contains the character `@` and `password` has length at least 8;
on success the profile role is ADMIN iff `email` contains the substring
`admin` (case-sensitive) and otherwise OPERATOR, the returned name is the
part of `email` before the first `@`, upper-cased; on failure it rejects
with the error message `INVALID CREDENTIALS`. -/
theorem mock_login_correct (tokenRnd idRnd email password : String) :
    ((∃ resp, MockAdapter.login tokenRnd idRnd email password = Except.ok resp) ↔
      (strIncludes email "@" = true ∧ 8 ≤ password.length))
    ∧ (∀ resp, MockAdapter.login tokenRnd idRnd email password = Except.ok resp →
        (resp.user.role = Role.ADMIN ↔ strIncludes email "admin" = true)
        ∧ (resp.user.role ≠ Role.ADMIN → resp.user.role = Role.OPERATOR)
        ∧ resp.user.name =
            strToUpper (String.mk (email.data.takeWhile (fun c => !(c == '@')))))
    ∧ (¬ (strIncludes email "@" = true ∧ 8 ≤ password.length) →
        MockAdapter.login tokenRnd idRnd email password =
          Except.error "INVALID CREDENTIALS") := by
  by_cases hv : validCreds email password = true
  · have hc := (validCreds_iff email password).mp hv
    refine ⟨⟨fun _ => hc, fun _ => ?_⟩, ?_, ?_⟩
    · exact ⟨{ token := "mock-jwt-token-" ++ tokenRnd
               user := { id := "usr_" ++ idRnd
                         name := strToUpper
                           (String.mk ((splitOnChar '@' email.data).headD []))
                         email := email
                         role := if strIncludes email "admin" then Role.ADMIN
                                 else Role.OPERATOR } },
             by simp only [MockAdapter.login, hv, if_true]⟩
    · intro resp hresp
      simp only [MockAdapter.login, hv, if_true, Except.ok.injEq] at hresp
      subst hresp
      refine ⟨?_, ?_, ?_⟩
      · by_cases ha : strIncludes email "admin" = true
        · simp [ha]
        · simp [ha]
      · by_cases ha : strIncludes email "admin" = true
        · simp [ha]
        · simp [ha]
      · simp only [splitOnChar_headD]
    · intro hnc
      exact absurd hc hnc
  · have hnc : ¬ (strIncludes email "@" = true ∧ 8 ≤ password.length) :=
      fun hc => hv ((validCreds_iff email password).mpr hc)
    refine ⟨⟨?_, fun hc => absurd hc hnc⟩, ?_, ?_⟩
    · rintro ⟨resp, hresp⟩
      simp [MockAdapter.login, hv] at hresp
    · intro resp hresp
      simp [MockAdapter.login, hv] at hresp
    · intro _
      simp [MockAdapter.login, hv]

/-- Concrete response produced by `login("admin@x.com", "password1")` with
random suffixes `r` and `i`, used as the witness input for C1. -/
def adminResp : AuthResponse :=
  { token := "mock-jwt-token-r"
    user := { id := "usr_i", name := "ADMIN", email := "admin@x.com",
              role := Role.ADMIN } }

/-- Witness for C1: evaluates the login of `admin@x.com` / `password1`
(success, role ADMIN, name `ADMIN`) and of `bob@x.com` / `short`
(rejection with `INVALID CREDENTIALS`). -/
theorem mock_login_correct_witness :
    (MockAdapter.login "r" "i" "admin@x.com" "password1" = Except.ok adminResp)
    ∧ ((adminResp.user.role = Role.ADMIN ↔ strIncludes "admin@x.com" "admin" = true)
        ∧ (adminResp.user.role ≠ Role.ADMIN → adminResp.user.role = Role.OPERATOR)
        ∧ adminResp.user.name =
            strToUpper (String.mk ("admin@x.com".data.takeWhile (fun c => !(c == '@')))))
    ∧ MockAdapter.login "r" "i" "bob@x.com" "short" =
        Except.error "INVALID CREDENTIALS" :=
  ⟨by rfl,
   (mock_login_correct "r" "i" "admin@x.com" "password1").2.1 adminResp (by rfl),
   (mock_login_correct "r" "i" "bob@x.com" "short").2.2 (by decide)⟩

/-- C2: After the dashboard view deactivates (the polling cleanup has run),
no subsequent event — including the late resolution of a fetch that was in
flight at deactivation time — changes the stats or logs view state. -/
theorem poll_no_write_after_deactivate (s : MountedDashboard) (es : List PollEvent) :
    pollEvents (pollStep s PollEvent.deactivate) es =
      { mounted := false, dash := s.dash } := by
  have key : ∀ (evs : List PollEvent) (t : MountedDashboard), t.mounted = false →
      pollEvents t evs = t := by
    intro evs
    induction evs with
    | nil => intro t _; rfl
    | cons e rest ih =>
      intro t ht
      have hstep : pollStep t e = t := by
        cases e with
        | deactivate =>
          cases t
          simp only [pollStep] at ht ⊢
          simp [ht]
        | resolveStats sr => cases sr <;> simp [pollStep, ht]
        | resolveLogs lr => cases lr <;> simp [pollStep, ht]
      have : pollEvents t (e :: rest) = pollEvents (pollStep t e) rest := rfl
      rw [this, hstep]
      exact ih t ht
  have hde : pollStep s PollEvent.deactivate = { mounted := false, dash := s.dash } := rfl
  rw [hde]
  exact key es { mounted := false, dash := s.dash } rfl

/-- C3: `getBackend` returns the Live adapter iff the stored
`use_live_backend` value is exactly the string `true` (Mock for every
other value, including an absent entry), and toggling the flag then
re-resolving yields a different concrete provider than before. -/
theorem backend_resolution_and_toggle (store : Store) :
    (getBackend store = BackendChoice.LiveAdapter ↔
      getItem store "use_live_backend" = some "true")
    ∧ (getBackend store = BackendChoice.MockAdapter ↔
      ¬ getItem store "use_live_backend" = some "true")
    ∧ getBackend (toggleBackend store) ≠ getBackend store := by
  by_cases h : store "use_live_backend" = some "true"
  · have hafter : toggleBackend store "use_live_backend" = some "false" := by
      simp [toggleBackend, setItem, getItem, boolToString, h]
    have h1 : getBackend (toggleBackend store) = BackendChoice.MockAdapter := by
      simp [getBackend, getItem, hafter]
    have h2 : getBackend store = BackendChoice.LiveAdapter := by
      simp [getBackend, getItem, h]
    exact ⟨by simp [getItem, h2, h], by simp [getItem, h2, h], by simp [h1, h2]⟩
  · have hafter : toggleBackend store "use_live_backend" = some "true" := by
      simp [toggleBackend, setItem, getItem, boolToString, h]
    have h1 : getBackend (toggleBackend store) = BackendChoice.LiveAdapter := by
      simp [getBackend, getItem, hafter]
    have h2 : getBackend store = BackendChoice.MockAdapter := by
      simp [getBackend, getItem, h]
    exact ⟨by simp [getItem, h2, h], by simp [getItem, h2, h], by simp [h1, h2]⟩

/-- C4: at bootstrap, a present session token yields the DASHBOARD view
with a non-empty synthetic OPERATOR profile and no provider call; an
absent token yields the AUTH view. -/
theorem app_bootstrap_correct (store : Store) :
    ((getItem store "token").isSome = true →
      (appBootstrap store).1.view = ViewState.DASHBOARD
      ∧ (appBootstrap store).2 = []
      ∧ ∃ p, (appBootstrap store).1.user = some p
          ∧ p.role = Role.OPERATOR ∧ p.name ≠ "")
    ∧ (getItem store "token" = none →
      (appBootstrap store).1.view = ViewState.AUTH) := by
  cases h : getItem store "token" with
  | none => simp [appBootstrap, h]
  | some t =>
    refine ⟨fun _ => ?_, fun hn => by simp [h] at hn⟩
    refine ⟨by simp [appBootstrap, h], by simp [appBootstrap, h], ?_⟩
    refine ⟨{ id := "usr_restored", name := "OPERATOR",
              email := "session@restored", role := Role.OPERATOR },
            ?_, rfl, by decide⟩
    simp [appBootstrap, h]

/-- Concrete store holding a session token, for the C4 witness. -/
def tokStore : Store := setItem emptyStore "token" "tok-1"

/-- Witness for C4: a store with a token bootstraps to DASHBOARD, the
empty store bootstraps to AUTH. -/
theorem app_bootstrap_correct_witness :
    ((getItem tokStore "token").isSome = true
      ∧ (appBootstrap tokStore).1.view = ViewState.DASHBOARD
      ∧ (appBootstrap tokStore).2 = [])
    ∧ (getItem emptyStore "token" = none
      ∧ (appBootstrap emptyStore).1.view = ViewState.AUTH) :=
  ⟨⟨by decide, ((app_bootstrap_correct tokStore).1 (by decide)).1,
    ((app_bootstrap_correct tokStore).1 (by decide)).2.1⟩,
   ⟨rfl, (app_bootstrap_correct emptyStore).2 rfl⟩⟩

/-- C5: a poll tick whose fetch fails is caught inside the loop: the
state is left untouched (stats failure) or keeps the previous logs (logs
failure), `fetchData` returns normally rather than throwing, and the
remaining scheduled ticks still run on the resulting state. -/
theorem poll_error_swallowed (e e2 : String) (s : SystemStats)
    (r : Except String (List LogEntry))
    (rest : List (Except String SystemStats × Except String (List LogEntry)))
    (st : DashboardState) :
    fetchData (Except.error e) r st = st
    ∧ pollRun ((Except.error e, r) :: rest) st = pollRun rest st
    ∧ (fetchData (Except.ok s) (Except.error e2) st).logs = st.logs
    ∧ pollRun ((Except.ok s, Except.error e2) :: rest) st =
        pollRun rest { stats := s, logs := st.logs } :=
  ⟨rfl, rfl, rfl, rfl⟩

/-- C6: logout removes the stored token and discards the profile, so a
subsequent bootstrap finds no token and lands in the AUTH view. -/
theorem logout_clears_token (store : Store) (st : AppState) :
    getItem (handleLogout store st).1 "token" = none
    ∧ (handleLogout store st).2 = { view := ViewState.AUTH, user := none }
    ∧ (appBootstrap (handleLogout store st).1).1.view = ViewState.AUTH := by
  have hnone : getItem (handleLogout store st).1 "token" = none := by
    simp [handleLogout, removeItem, getItem]
  exact ⟨hnone, rfl, by simp [appBootstrap, hnone]⟩

/-- C7: `register` on the Simulated Provider succeeds on every input, and
the returned profile always has role OPERATOR and name equal to the
supplied full name upper-cased. -/
theorem mock_register_correct (tokenRnd idRnd email password fullName : String) :
    MockAdapter.register tokenRnd idRnd email password fullName =
      Except.ok
        { token := "mock-jwt-token-" ++ tokenRnd
          user := { id := "usr_" ++ idRnd, name := strToUpper fullName,
                    email := email, role := Role.OPERATOR } }
    ∧ (∀ resp, MockAdapter.register tokenRnd idRnd email password fullName =
          Except.ok resp →
        resp.user.role = Role.OPERATOR ∧ resp.user.name = strToUpper fullName) := by
  refine ⟨rfl, fun resp h => ?_⟩
  simp only [MockAdapter.register, Except.ok.injEq] at h
  subst h
  exact ⟨rfl, rfl⟩

/-- Witness for C7: registration of a concrete triple returns role
OPERATOR and the upper-cased full name. -/
theorem mock_register_correct_witness :
    (MockAdapter.register "r" "i" "jane@x.com" "password1" "Jane Doe" =
      Except.ok
        { token := "mock-jwt-token-r"
          user := { id := "usr_i", name := "JANE DOE",
                    email := "jane@x.com", role := Role.OPERATOR } })
    ∧ ({ token := "mock-jwt-token-r"
         user := { id := "usr_i", name := ("JANE DOE" : String),
                   email := "jane@x.com", role := Role.OPERATOR } } :
           AuthResponse).user.role = Role.OPERATOR :=
  ⟨by rfl,
   ((mock_register_correct "r" "i" "jane@x.com" "password1" "Jane Doe").2 _ (by rfl)).1⟩

/-- C8: every call of `fetchLogs` returns the same fixed ordered sequence
of exactly 7 log entries, and every call of `fetchDevices` returns the
same fixed ordered sequence of exactly 5 devices with ids DEV-001 through
DEV-005 in order. -/
theorem mock_fixed_datasets (u v : Unit) :
    MockAdapter.fetchLogs u = MockAdapter.fetchLogs v
    ∧ (MockAdapter.fetchLogs u).length = 7
    ∧ (MockAdapter.fetchLogs u).map (fun l => l.id) = [1, 2, 3, 4, 5, 6, 7]
    ∧ MockAdapter.fetchDevices u = MockAdapter.fetchDevices v
    ∧ (MockAdapter.fetchDevices u).length = 5
    ∧ (MockAdapter.fetchDevices u).map (fun d => d.id) =
        ["DEV-001", "DEV-002", "DEV-003", "DEV-004", "DEV-005"] :=
  ⟨rfl, rfl, rfl, rfl, rfl, rfl⟩

/-- The nth `fetchSystemStats` call of a run, drawing its three
`Math.random()` values from a stream of draws; the adapter itself holds no
state across calls. -/
def statsCallSeq (draws : Nat → ℚ × ℚ × ℚ) (n : Nat) : SystemStats :=
  MockAdapter.fetchSystemStats (draws n).1 (draws n).2.1 (draws n).2.2

/-- C9: every `fetchSystemStats` result has cpu in [42,57), memory in
[64,74), network in [120,170) and activeNodes equal to 24, given that each
`Math.random()` draw lies in [0,1); and the nth call of a run depends only
on the nth draw — no state is carried between calls. -/
theorem mock_stats_bounds (r1 r2 r3 : ℚ)
    (h1l : 0 ≤ r1) (h1u : r1 < 1) (h2l : 0 ≤ r2) (h2u : r2 < 1)
    (h3l : 0 ≤ r3) (h3u : r3 < 1) :
    (42 ≤ (MockAdapter.fetchSystemStats r1 r2 r3).cpu
      ∧ (MockAdapter.fetchSystemStats r1 r2 r3).cpu < 57
      ∧ 64 ≤ (MockAdapter.fetchSystemStats r1 r2 r3).memory
      ∧ (MockAdapter.fetchSystemStats r1 r2 r3).memory < 74
      ∧ 120 ≤ (MockAdapter.fetchSystemStats r1 r2 r3).network
      ∧ (MockAdapter.fetchSystemStats r1 r2 r3).network < 170
      ∧ (MockAdapter.fetchSystemStats r1 r2 r3).activeNodes = 24)
    ∧ (∀ (draws draws' : Nat → ℚ × ℚ × ℚ) (n : Nat), draws n = draws' n →
        statsCallSeq draws n = statsCallSeq draws' n) := by
  have flo : ∀ (r : ℚ) (k : ℤ), 0 ≤ r → r < 1 → 0 < k →
      0 ≤ Int.floor (r * (k : ℚ)) ∧ Int.floor (r * (k : ℚ)) < k := by
    intro r k hr hru hk
    constructor
    · exact Int.floor_nonneg.mpr (mul_nonneg hr (by exact_mod_cast hk.le))
    · apply Int.floor_lt.mpr
      have : r * (k : ℚ) < 1 * (k : ℚ) :=
        mul_lt_mul_of_pos_right hru (by exact_mod_cast hk)
      simpa using this
  have f1 := flo r1 15 h1l h1u (by norm_num)
  have f2 := flo r2 10 h2l h2u (by norm_num)
  have f3 := flo r3 50 h3l h3u (by norm_num)
  norm_num at f1 f2 f3
  refine ⟨?_, fun draws draws' n h => by simp [statsCallSeq, h]⟩
  simp only [MockAdapter.fetchSystemStats]
  refine ⟨by linarith [f1.1], by linarith [f1.2], by linarith [f2.1],
    by linarith [f2.2], by linarith [f3.1], by linarith [f3.2], by trivial⟩

/-- Witness for C9: the draws 1/2, 1/2, 1/2 lie in [0,1) and the resulting
cpu value satisfies the band. -/
theorem mock_stats_bounds_witness :
    ((0:ℚ) ≤ 1/2 ∧ (1:ℚ)/2 < 1)
    ∧ 42 ≤ (MockAdapter.fetchSystemStats (1/2) (1/2) (1/2)).cpu
    ∧ (MockAdapter.fetchSystemStats (1/2) (1/2) (1/2)).cpu < 57 :=
  ⟨⟨by norm_num, by norm_num⟩,
   ((mock_stats_bounds (1/2) (1/2) (1/2) (by norm_num) (by norm_num) (by norm_num)
      (by norm_num) (by norm_num) (by norm_num)).1).1,
   ((mock_stats_bounds (1/2) (1/2) (1/2) (by norm_num) (by norm_num) (by norm_num)
      (by norm_num) (by norm_num) (by norm_num)).1).2.1⟩

/-- C10: a poll tick is not atomic: the stats write happens before the
logs fetch starts, so a stats success followed by a logs failure leaves
the new stats with the previous logs, while a stats failure writes
neither. -/
theorem poll_tick_not_atomic (s : SystemStats) (e : String) (l : List LogEntry)
    (st : DashboardState) :
    fetchData (Except.ok s) (Except.error e) st = { stats := s, logs := st.logs }
    ∧ (∀ r, fetchData (Except.error e) r st = st)
    ∧ (∀ r, ∃ rest, fetchDataTrace (Except.ok s) r =
        [FetchAction.callFetchStats, FetchAction.writeStats s,
         FetchAction.callFetchLogs] ++ rest)
    ∧ fetchDataTrace (Except.error e) (Except.ok l) = [FetchAction.callFetchStats] := by
  refine ⟨rfl, fun r => rfl, fun r => ?_, rfl⟩
  cases r with
  | error e2 => exact ⟨[], rfl⟩
  | ok l2 => exact ⟨[FetchAction.writeLogs l2], rfl⟩
